import Mathlib

/-! Login page (`main.cpp`): shallow embedding and verified properties.

The program is a single C translation unit: an `InputField` editor
(`InitInputField`, `UpdateInputField`), a credential check against an SQLite
table (`ValidateCredentials`) and the frame loop of `main`.

Conventions of the embedding

* C `int` values are `Int` (no arithmetic here can overflow: the only counter is
  bounded by `MAX_INPUT_LENGTH`).
* A `char` cell is its byte value, a `Nat` below 256; `(char)key` is `key % 256`.
* `char text[MAX_INPUT_LENGTH]` is a list of cells; a store through an index that
  is negative or not below `MAX_INPUT_LENGTH` is undefined behaviour in C and
  makes the embedded function return `none`.
* A `const char*` argument is modelled by the string it points to (`CStr`, the
  cells before the first NUL).
* Everything raylib and SQLite report during one frame is an explicit input
  (`FrameInput`); pointer coordinates are integers (pixels).
-/

namespace AuthPage

/-! ## Data model -/

/-- The macro `MAX_INPUT_LENGTH` (line 7). -/
def MAX_INPUT_LENGTH : Int := 50

/-- The enum `PageType` (lines 9-12). -/
inductive PageType where
  | PAGE_SIGNIN
  | PAGE_SIGNUP
  deriving DecidableEq, Repr

/-- The raylib point type, with integer pixel coordinates. -/
structure Vector2 where
  x : Int
  y : Int
  deriving DecidableEq, Repr

/-- The raylib rectangle type, with integer pixel coordinates. -/
structure Rectangle where
  x : Int
  y : Int
  width : Int
  height : Int
  deriving DecidableEq, Repr

/-- The struct `InputField` (lines 14-19). -/
structure InputField where
  text : List Nat
  length : Int
  bounds : Rectangle
  isActive : Bool
  deriving DecidableEq, Repr

/-- The content of a C string: the cells before the first NUL. -/
abbrev CStr := List Nat

/-- The string a `char*` into `text` denotes. -/
def cstr (text : List Nat) : CStr := text.takeWhile (fun c => c != 0)

/-- The C library function `strlen`. -/
def strlen (text : List Nat) : Nat := (cstr text).length

/-- The conversion `(char)key` of line 39, as a byte value. -/
def toChar (key : Int) : Nat := (key % 256).toNat

/-- The store `text[i] = c`; `none` when the index is outside the array. -/
def writeText (text : List Nat) (i : Int) (c : Nat) : Option (List Nat) :=
  if 0 ≤ i ∧ i < MAX_INPUT_LENGTH then some (text.set i.toNat c) else none

/-- The function `InitInputField` (lines 21-26); `field` is the uninitialised
stack object it is handed. -/
def InitInputField (field : InputField) (bounds : Rectangle) : InputField :=
  { text := field.text.set 0 0, length := 0, bounds := bounds, isActive := false }

/-! ## The collaborators: input surface and store engine -/

/-- Modelled from the spec: raylib is not part of the sources; the call
`CheckCollisionPointRec` tells whether the pointer is over a region, that is,
whether the point lies in the rectangle (left and top edges included). -/
def CheckCollisionPointRec (point : Vector2) (rec : Rectangle) : Bool :=
  decide (point.x ≥ rec.x) && decide (point.x < rec.x + rec.width) &&
    decide (point.y ≥ rec.y) && decide (point.y < rec.y + rec.height)

/-- Modelled from the spec: raylib is not part of the sources; the call
`GetCharPressed` pops the next queued character code of this frame and
returns 0 when the queue is empty. -/
def GetCharPressed : List Int → Int × List Int
  | [] => (0, [])
  | k :: rest => (k, rest)

/-- Modelled from the spec: the credential store is the relation
`users (username TEXT PRIMARY KEY, password TEXT)`, a list of rows. -/
abbrev Db := List (CStr × CStr)

/-- The result code `SQLITE_OK`. -/
def SQLITE_OK : Int := 0

/-- What the engine does with the statement of one submit: the result code of
`sqlite3_prepare_v2`, and an error `sqlite3_step` reports instead of running
the statement (`none` when the engine is healthy). -/
structure Engine where
  prepareRc : Int
  stepFault : Option Int
  deriving DecidableEq, Repr

/-- A healthy engine: the statement prepares and the step runs it. -/
def Engine.healthy : Engine := { prepareRc := SQLITE_OK, stepFault := none }

/-- The results of `sqlite3_step` the program tells apart: `SQLITE_ROW` (with
column 0 of the row), `SQLITE_DONE`, and any other code. -/
inductive StepResult where
  | row (column0 : CStr)
  | done
  | error (code : Int)
  deriving DecidableEq, Repr

/-- Modelled from the spec: `lookup(username)`, the stored password of the row
whose username is exactly the given one. -/
def lookupPassword : Db → CStr → Option CStr
  | [], _ => none
  | (u, p) :: rest, username => if u = username then some p else lookupPassword rest username

/-- Modelled from the spec: stepping `SELECT password FROM users WHERE
username = ?` with the username bound. -/
def stepSelect (db : Db) (eng : Engine) (username : CStr) : StepResult :=
  match eng.stepFault with
  | some code => StepResult.error code
  | none =>
    match lookupPassword db username with
    | some stored => StepResult.row stored
    | none => StepResult.done

/-- Modelled from the spec: stepping `INSERT INTO users (username, password)
VALUES (?, ?)`: `insertIfAbsent`, the primary key rejecting a second row with
the same username (a constraint error). -/
def stepInsert (db : Db) (eng : Engine) (username password : CStr) : StepResult × Db :=
  match eng.stepFault with
  | some code => (StepResult.error code, db)
  | none =>
    match lookupPassword db username with
    | some _ => (StepResult.error 19, db)
    | none => (StepResult.done, db ++ [(username, password)])

/-- Everything the input surface and the engine report during one frame. -/
structure FrameInput where
  windowShouldClose : Bool
  tabPressed : Bool
  mouse : Vector2
  mousePressed : Bool
  chars : List Int
  backspacePressed : Bool
  engine : Engine
  deriving DecidableEq, Repr

/-! ## `UpdateInputField` (lines 28-51) -/

/-- The body of the `while` loop for one key (lines 38-42). -/
def appendChar (field : InputField) (key : Int) : Option InputField :=
  if field.length < MAX_INPUT_LENGTH - 1 then
    match writeText field.text field.length (toChar key) with
    | none => none
    | some t1 =>
      match writeText t1 (field.length + 1) 0 with
      | none => none
      | some t2 => some { field with text := t2, length := field.length + 1 }
  else some field

/-- The loop `while (key > 0)` of lines 37-44, entered with `key` already
popped; the second component is what is left of the queue. An empty queue makes
the next `GetCharPressed` return 0, which ends the loop. -/
def charLoop (field : InputField) (key : Int) (queue : List Int) :
    Option (InputField × List Int) :=
  match queue with
  | [] =>
    if key > 0 then
      match appendChar field key with
      | none => none
      | some f => some (f, [])
    else some (field, [])
  | k :: rest =>
    if key > 0 then
      match appendChar field key with
      | none => none
      | some f => charLoop f k rest
    else some (field, k :: rest)

/-- The backspace step (lines 46-49). -/
def backspace (field : InputField) (pressed : Bool) : Option InputField :=
  if pressed && decide (field.length > 0) then
    match writeText field.text (field.length - 1) 0 with
    | none => none
    | some t => some { field with text := t, length := field.length - 1 }
  else some field

/-- The activation step (lines 29-33). -/
def activate (field : InputField) (mouse : Vector2) (pressed : Bool) : InputField :=
  if CheckCollisionPointRec mouse field.bounds && pressed then { field with isActive := true }
  else if pressed then { field with isActive := false }
  else field

/-- The function `UpdateInputField` (lines 28-51) on the frame input and the
character queue; returns the field and the rest of the queue. -/
def UpdateInputField (field : InputField) (inp : FrameInput) (queue : List Int) :
    Option (InputField × List Int) :=
  let field1 := activate field inp.mouse inp.mousePressed
  if field1.isActive then
    match charLoop field1 (GetCharPressed queue).1 (GetCharPressed queue).2 with
    | none => none
    | some (field2, queue2) =>
      match backspace field2 inp.backspacePressed with
      | none => none
      | some field3 => some (field3, queue2)
  else some (field1, queue)

/-! ## `ValidateCredentials` (lines 53-71) -/

/-- The function `ValidateCredentials` (lines 53-71). -/
def ValidateCredentials (db : Db) (eng : Engine) (username password : CStr) : Bool :=
  if eng.prepareRc ≠ SQLITE_OK then false
  else
    match stepSelect db eng username with
    | StepResult.row storedPassword => password == storedPassword
    | _ => false

/-! ## The session state and one frame of `main` (lines 95-171) -/

/-- The local variables of `main` that live across frames, and the store. -/
structure Session where
  db : Db
  usernameField : InputField
  passwordField : InputField
  currentPage : PageType
  actionSuccess : Bool
  actionError : Bool
  message : Option String
  shouldClose : Bool
  deriving DecidableEq, Repr

/-- The field rectangle of line 98. -/
def usernameBounds : Rectangle := { x := 250, y := 140, width := 300, height := 40 }

/-- The field rectangle of line 99. -/
def passwordBounds : Rectangle := { x := 250, y := 200, width := 300, height := 40 }

/-- The button rectangle of line 126. -/
def actionButton : Rectangle := { x := 300, y := 280, width := 200, height := 40 }

/-- The state on reaching the loop (lines 95-105); `mem1` and `mem2` are the
uninitialised stack objects of the two fields. -/
def initialSession (db : Db) (mem1 mem2 : InputField) : Session :=
  { db := db
    usernameField := InitInputField mem1 usernameBounds
    passwordField := InitInputField mem2 passwordBounds
    currentPage := PageType.PAGE_SIGNIN
    actionSuccess := false
    actionError := false
    message := none
    shouldClose := false }

/-- The clearing of a field, `text[0] = 0; length = 0` (lines 112-115, 146-149). -/
def clearField (field : InputField) : InputField :=
  { field with text := field.text.set 0 0, length := 0 }

/-- The toggle block (lines 110-118). -/
def switchPage (s : Session) : Session :=
  { s with
    currentPage :=
      if s.currentPage = PageType.PAGE_SIGNIN then PageType.PAGE_SIGNUP else PageType.PAGE_SIGNIN
    usernameField := clearField s.usernameField
    passwordField := clearField s.passwordField
    message := none
    actionSuccess := false
    actionError := false }

/-- The tab handling of a frame (lines 109-119). -/
def handleTab (s : Session) (inp : FrameInput) : Session :=
  if inp.tabPressed then switchPage s else s

/-- The sign-up branch (lines 132-155). -/
def signUp (eng : Engine) (s : Session) : Session :=
  if eng.prepareRc = SQLITE_OK then
    match stepInsert s.db eng (cstr s.usernameField.text) (cstr s.passwordField.text) with
    | (StepResult.done, db1) =>
      { s with
        db := db1
        actionSuccess := true
        message := some "Signup successful!"
        usernameField := clearField s.usernameField
        passwordField := clearField s.passwordField }
    | (_, db1) =>
      { s with db := db1, actionError := true, message := some "Username already exists!" }
  else s

/-- The sign-in branch (lines 157-165). -/
def signIn (eng : Engine) (s : Session) : Session :=
  if ValidateCredentials s.db eng (cstr s.usernameField.text) (cstr s.passwordField.text) then
    { s with actionSuccess := true, message := some "Login successful!", shouldClose := true }
  else
    { s with actionError := true, message := some "Invalid username or password!" }

/-- The body of the button test (lines 130-170): one submit attempt. -/
def submit (eng : Engine) (s : Session) : Session :=
  if strlen s.usernameField.text > 0 ∧ strlen s.passwordField.text > 0 then
    if s.currentPage = PageType.PAGE_SIGNUP then signUp eng s else signIn eng s
  else
    { s with actionError := true, message := some "Please fill all fields!" }

/-- Whether this frame carries a submit event (line 129). -/
def submitEvent (inp : FrameInput) : Bool :=
  CheckCollisionPointRec inp.mouse actionButton && inp.mousePressed

/-- The first half of the loop body (lines 108-123): the tab handling and the
update of the two fields, which share the character queue of the frame. -/
def updateFields (s : Session) (inp : FrameInput) : Option Session :=
  let s1 := handleTab s inp
  match UpdateInputField s1.usernameField inp inp.chars with
  | none => none
  | some (u, queue1) =>
    match UpdateInputField s1.passwordField inp queue1 with
    | none => none
    | some (p, _) => some { s1 with usernameField := u, passwordField := p }

/-- The second half of the loop body (lines 125-171): the action button. -/
def handleAction (s : Session) (inp : FrameInput) : Session :=
  if submitEvent inp then submit inp.engine s else s

/-- One pass through the loop body, lines 108-171 (the drawing reads the state
and changes nothing). -/
def cycle (s : Session) (inp : FrameInput) : Option Session :=
  match updateFields s inp with
  | none => none
  | some s2 => some (handleAction s2 inp)

/-! ## Presentation of the outcome (lines 210-212) and the whole of `main` -/

/-- The two colours a message is drawn in. -/
inductive Color where
  | GREEN
  | RED
  deriving DecidableEq, Repr

/-- The message line of a frame (lines 210-212): nothing without a message,
otherwise the message in green when `actionSuccess` is set and in red if not. -/
def drawMessage (s : Session) : Option (String × Color) :=
  match s.message with
  | none => none
  | some m => some (m, if s.actionSuccess then Color.GREEN else Color.RED)

/-- The tri-state outcome of the data model. -/
inductive AuthOutcome where
  | Pending
  | Success (message : String)
  | Failure (message : String)
  deriving DecidableEq, Repr

/-- The outcome a state presents, read as the drawing code reads it. -/
def outcome (s : Session) : AuthOutcome :=
  match drawMessage s with
  | none => AuthOutcome.Pending
  | some (m, Color.GREEN) => AuthOutcome.Success m
  | some (m, Color.RED) => AuthOutcome.Failure m

/-- The loop of line 107 over the frames the surface delivers; returns the final
state and the message line of every frame drawn. -/
def mainLoop : Session → List FrameInput → Option (Session × List (Option (String × Color)))
  | s, [] => some (s, [])
  | s, inp :: rest =>
    if inp.windowShouldClose || s.shouldClose then some (s, [])
    else
      match cycle s inp with
      | none => none
      | some s1 =>
        match mainLoop s1 rest with
        | none => none
        | some (final, drawn) => some (final, drawMessage s1 :: drawn)

/-- What a run of `main` leaves behind: the console lines, and, when the loop
was reached, its final state and the frames drawn. -/
structure RunResult where
  console : List String
  loop : Option (Session × List (Option (String × Color)))
  deriving DecidableEq, Repr

/-- The function `main` (lines 73-225): `openRc` is the result of
`sqlite3_open`, `execRc` the result of the `CREATE TABLE IF NOT EXISTS`
statement; `none` when a frame runs into undefined behaviour. -/
def main (openRc execRc : Int) (db : Db) (mem1 mem2 : InputField)
    (frames : List FrameInput) : Option RunResult :=
  if openRc ≠ 0 then some { console := ["Can't open database"], loop := none }
  else
    let console := if execRc ≠ SQLITE_OK then ["SQL error"] else []
    match mainLoop (initialSession db mem1 mem2) frames with
    | none => none
    | some r => some { console := console, loop := some r }

/-- The states the loop can be in at the top of a frame. -/
inductive Reachable (db : Db) (mem1 mem2 : InputField) : Session → Prop where
  | start : Reachable db mem1 mem2 (initialSession db mem1 mem2)
  | frame (s s1 : Session) (inp : FrameInput) :
      Reachable db mem1 mem2 s → s.shouldClose = false → cycle s inp = some s1 →
      Reachable db mem1 mem2 s1

/-- Both length counters are within the array and both fields sit on their
rectangles. -/
def FieldsOk (s : Session) : Prop :=
  (0 ≤ s.usernameField.length ∧ s.usernameField.length ≤ MAX_INPUT_LENGTH - 1) ∧
  (0 ≤ s.passwordField.length ∧ s.passwordField.length ≤ MAX_INPUT_LENGTH - 1) ∧
  s.usernameField.bounds = usernameBounds ∧ s.passwordField.bounds = passwordBounds

instance (s : Session) : Decidable (FieldsOk s) := by
  unfold FieldsOk
  exact inferInstance

/-- Runs the frames in order from a state, stopping at undefined behaviour. -/
def runFrames : Session → List FrameInput → Option Session
  | s, [] => some s
  | s, inp :: rest =>
    match cycle s inp with
    | none => none
    | some s1 => runFrames s1 rest

/-! ## Concrete inputs used in the checks -/

/-- An array of fifty NUL cells. -/
def zeroText : List Nat := List.replicate 50 0

/-- A zeroed stack object for a field. -/
def zeroField : InputField :=
  { text := zeroText, length := 0, bounds := { x := 0, y := 0, width := 0, height := 0 },
    isActive := false }

/-- A frame in which nothing happens. -/
def idleFrame : FrameInput :=
  { windowShouldClose := false, tabPressed := false, mouse := { x := 0, y := 0 },
    mousePressed := false, chars := [], backspacePressed := false, engine := Engine.healthy }

/-- A frame with a TAB press. -/
def tabFrame : FrameInput := { idleFrame with tabPressed := true }

/-- A frame with a click at a point while the given characters are typed. -/
def clickFrame (x y : Int) (chars : List Int) : FrameInput :=
  { idleFrame with mouse := { x := x, y := y }, mousePressed := true, chars := chars }

/-- A field array holding the given string, NUL-filled to fifty cells. -/
def typedField (chars : List Nat) (bounds : Rectangle) : InputField :=
  { text := chars ++ List.replicate (50 - chars.length) 0, length := chars.length,
    bounds := bounds, isActive := false }

/-- A state on the given page whose fields hold the given strings, with no
message and no flag set. -/
def typedSession (db : Db) (page : PageType) (username password : List Nat) : Session :=
  { db := db
    usernameField := typedField username usernameBounds
    passwordField := typedField password passwordBounds
    currentPage := page
    actionSuccess := false
    actionError := false
    message := none
    shouldClose := false }

/-- The state after a click on the username field typing "a" and a click on the
password field typing "b", on the sign-in page over a store holding ("a","b"). -/
def signInReady : Session :=
  { typedSession [([97], [98])] PageType.PAGE_SIGNIN [97] [98] with
    passwordField := { typedField [98] passwordBounds with isActive := true } }

/-- An engine whose `sqlite3_prepare_v2` fails with `SQLITE_ERROR`. -/
def prepareFails : Engine := { prepareRc := 1, stepFault := none }

/-- An engine whose `sqlite3_step` fails with `SQLITE_FULL`. -/
def stepFails : Engine := { prepareRc := SQLITE_OK, stepFault := some 13 }

/-- The codes of "alice". -/
def alice : List Int := [97, 108, 105, 99, 101]

/-- The codes of "secret". -/
def secret : List Int := [115, 101, 99, 114, 101, 116]

/-- The codes of "other". -/
def other : List Int := [111, 116, 104, 101, 114]

/-- Scenario A then B: switch to sign-up, enter ("alice","secret"), submit,
enter ("alice","other"), submit. -/
def scenarioAB : List FrameInput :=
  [tabFrame,
   clickFrame 260 150 alice, clickFrame 260 210 secret, clickFrame 350 300 [],
   clickFrame 260 150 alice, clickFrame 260 210 other, clickFrame 350 300 []]

/-! ## Properties of the field editor -/

theorem appendChar_spec (f : InputField) (key : Int)
    (h0 : 0 ≤ f.length) (h1 : f.length ≤ MAX_INPUT_LENGTH - 1) :
    ∃ g, appendChar f key = some g ∧ 0 ≤ g.length ∧ g.length ≤ MAX_INPUT_LENGTH - 1 ∧
      g.bounds = f.bounds ∧ g.isActive = f.isActive := by
  unfold appendChar
  by_cases h : f.length < MAX_INPUT_LENGTH - 1
  · have ha : 0 ≤ f.length ∧ f.length < MAX_INPUT_LENGTH := by
      unfold MAX_INPUT_LENGTH at *; omega
    have hb : 0 ≤ f.length + 1 ∧ f.length + 1 < MAX_INPUT_LENGTH := by
      unfold MAX_INPUT_LENGTH at *; omega
    simp only [h, if_true, writeText, ha, hb, and_self]
    refine ⟨_, rfl, ?_, ?_, rfl, rfl⟩
    · show 0 ≤ f.length + 1
      omega
    · show f.length + 1 ≤ MAX_INPUT_LENGTH - 1
      omega
  · simp only [h, if_false]
    exact ⟨f, rfl, h0, h1, rfl, rfl⟩

theorem appendChar_full (f : InputField) (key : Int)
    (h : f.length = MAX_INPUT_LENGTH - 1) : appendChar f key = some f := by
  unfold appendChar
  simp [h]

theorem charLoop_spec (queue : List Int) :
    ∀ (f : InputField) (key : Int), 0 ≤ f.length → f.length ≤ MAX_INPUT_LENGTH - 1 →
    ∃ g rest, charLoop f key queue = some (g, rest) ∧ 0 ≤ g.length ∧
      g.length ≤ MAX_INPUT_LENGTH - 1 ∧ g.bounds = f.bounds ∧ g.isActive = f.isActive := by
  induction queue with
  | nil =>
    intro f key h0 h1
    unfold charLoop
    by_cases hk : key > 0
    · obtain ⟨g, hg, a, b, c, d⟩ := appendChar_spec f key h0 h1
      simp only [hk, if_true, hg]
      exact ⟨g, [], rfl, a, b, c, d⟩
    · simp only [hk, if_false]
      exact ⟨f, [], rfl, h0, h1, rfl, rfl⟩
  | cons k rest ih =>
    intro f key h0 h1
    unfold charLoop
    by_cases hk : key > 0
    · obtain ⟨g, hg, a, b, c, d⟩ := appendChar_spec f key h0 h1
      simp only [hk, if_true, hg]
      obtain ⟨g2, r2, e, a2, b2, c2, d2⟩ := ih g k a b
      exact ⟨g2, r2, e, a2, b2, c2.trans c, d2.trans d⟩
    · simp only [hk, if_false]
      exact ⟨f, k :: rest, rfl, h0, h1, rfl, rfl⟩

theorem backspace_spec (f : InputField) (pressed : Bool)
    (h0 : 0 ≤ f.length) (h1 : f.length ≤ MAX_INPUT_LENGTH - 1) :
    ∃ g, backspace f pressed = some g ∧ 0 ≤ g.length ∧ g.length ≤ MAX_INPUT_LENGTH - 1 ∧
      g.bounds = f.bounds ∧ g.isActive = f.isActive := by
  unfold backspace
  by_cases h : (pressed && decide (f.length > 0)) = true
  · have hpos : f.length > 0 := by
      simp only [Bool.and_eq_true, decide_eq_true_eq] at h
      exact h.2
    have ha : 0 ≤ f.length - 1 ∧ f.length - 1 < MAX_INPUT_LENGTH := by
      unfold MAX_INPUT_LENGTH at *; omega
    simp only [h, if_true, writeText, ha, and_self]
    refine ⟨_, rfl, ?_, ?_, rfl, rfl⟩
    · show 0 ≤ f.length - 1
      omega
    · show f.length - 1 ≤ MAX_INPUT_LENGTH - 1
      omega
  · simp only [h]
    exact ⟨f, rfl, h0, h1, rfl, rfl⟩

theorem activate_length (f : InputField) (m : Vector2) (pr : Bool) :
    (activate f m pr).length = f.length ∧ (activate f m pr).bounds = f.bounds ∧
    (activate f m pr).text = f.text := by
  unfold activate
  split_ifs <;> exact ⟨rfl, rfl, rfl⟩

theorem activate_isActive (f : InputField) (m : Vector2) (pr : Bool) :
    (activate f m pr).isActive =
      if pr then CheckCollisionPointRec m f.bounds else f.isActive := by
  unfold activate
  cases pr <;> cases h : CheckCollisionPointRec m f.bounds <;> simp [h]

theorem UpdateInputField_spec (f : InputField) (inp : FrameInput) (queue : List Int)
    (h0 : 0 ≤ f.length) (h1 : f.length ≤ MAX_INPUT_LENGTH - 1) :
    ∃ g rest, UpdateInputField f inp queue = some (g, rest) ∧ 0 ≤ g.length ∧
      g.length ≤ MAX_INPUT_LENGTH - 1 ∧ g.bounds = f.bounds ∧
      g.isActive = (if inp.mousePressed then CheckCollisionPointRec inp.mouse f.bounds
        else f.isActive) := by
  obtain ⟨hl, hb, -⟩ := activate_length f inp.mouse inp.mousePressed
  have hact := activate_isActive f inp.mouse inp.mousePressed
  unfold UpdateInputField
  by_cases h : (activate f inp.mouse inp.mousePressed).isActive = true
  · obtain ⟨g, rest, hg, a, b, c, d⟩ := charLoop_spec (GetCharPressed queue).2
      (activate f inp.mouse inp.mousePressed) (GetCharPressed queue).1
      (by rw [hl]; exact h0) (by rw [hl]; exact h1)
    obtain ⟨g2, hg2, a2, b2, c2, d2⟩ := backspace_spec g inp.backspacePressed a b
    simp only [h, if_true, hg, hg2]
    exact ⟨g2, rest, rfl, a2, b2, (c2.trans c).trans hb, (d2.trans d).trans hact⟩
  · simp only [h]
    exact ⟨_, queue, rfl, by rw [hl]; exact h0, by rw [hl]; exact h1, hb, hact⟩

/-- C8: from a field whose length is between 0 and `MAX_INPUT_LENGTH - 1`, for any
pointer, press, queue of typed characters and backspace flag, `UpdateInputField`
completes without a store outside the array (it returns `some`, and a store at an
index that is negative or at least 50 would return `none`) and ends with the
length again between 0 and 49; an append at length 49 leaves the field as it is. -/
theorem input_buffer_bounded (field : InputField) (inp : FrameInput) (queue : List Int)
    (h0 : 0 ≤ field.length) (h1 : field.length ≤ MAX_INPUT_LENGTH - 1) :
    (∃ g rest, UpdateInputField field inp queue = some (g, rest) ∧
      0 ≤ g.length ∧ g.length ≤ MAX_INPUT_LENGTH - 1) ∧
    (∀ t i c, (writeText t i c).isSome = true ↔ (0 ≤ i ∧ i < MAX_INPUT_LENGTH)) ∧
    (∀ key, field.length = MAX_INPUT_LENGTH - 1 →
      appendChar field key = some field ∧
      charLoop field key [] = some (field, [])) := by
  refine ⟨?_, ?_, ?_⟩
  · obtain ⟨g, rest, hg, a, b, -, -⟩ := UpdateInputField_spec field inp queue h0 h1
    exact ⟨g, rest, hg, a, b⟩
  · intro t i c
    unfold writeText
    by_cases h : 0 ≤ i ∧ i < MAX_INPUT_LENGTH <;> simp [h]
  · intro key h
    have ha := appendChar_full field key h
    refine ⟨ha, ?_⟩
    unfold charLoop
    by_cases hk : key > 0 <;> simp [hk, ha]


/-- A full field (49 characters) with one more character typed: the counters are
in range and the append leaves the field as it is. -/
theorem input_buffer_bounded_witness :
    (0 : Int) ≤ (typedField (List.replicate 49 97) usernameBounds).length ∧
    (typedField (List.replicate 49 97) usernameBounds).length ≤ MAX_INPUT_LENGTH - 1 ∧
    appendChar (typedField (List.replicate 49 97) usernameBounds) 98 =
      some (typedField (List.replicate 49 97) usernameBounds) :=
  ⟨by decide, by decide,
    ((input_buffer_bounded (typedField (List.replicate 49 97) usernameBounds) idleFrame []
      (by decide) (by decide)).2.2 98 (by decide)).1⟩

theorem cstr_set_zero (t : List Nat) : cstr (t.set 0 0) = [] := by
  cases t <;> simp [cstr]

theorem cstr_set_append (c : Nat) (hc : c ≠ 0) :
    ∀ (t : List Nat) (n : Nat), (cstr t).length = n → n + 1 < t.length →
      cstr ((t.set n c).set (n + 1) 0) = cstr t ++ [c] := by
  intro t
  induction t with
  | nil => intro n _ h; simp at h
  | cons a r ih =>
    intro n hn hlen
    by_cases ha : a = 0
    · subst ha
      have : n = 0 := by simpa [cstr] using hn.symm
      subst this
      cases r with
      | nil => simp at hlen
      | cons b r2 => simp [cstr, hc]
    · cases n with
      | zero => simp [cstr, ha] at hn
      | succ m =>
        have hm : (cstr r).length = m := by simpa [cstr, ha] using hn
        have hl : m + 1 < r.length := by simpa using hlen
        have := ih m hm hl
        simp only [cstr] at this ⊢
        simp [ha, this]

/-- The append does what the contract says whenever the stored byte is not NUL. -/
theorem appendChar_appends (f : InputField) (key : Int)
    (hlen : f.text.length = 50) (hs : (strlen f.text : Int) = f.length)
    (hroom : f.length < MAX_INPUT_LENGTH - 1) (hc : toChar key ≠ 0) :
    ∃ g, appendChar f key = some g ∧ cstr g.text = cstr f.text ++ [toChar key] ∧
      g.length = f.length + 1 ∧ (strlen g.text : Int) = g.length := by
  have h0 : 0 ≤ f.length := by rw [← hs]; exact Int.natCast_nonneg _
  have ha : 0 ≤ f.length ∧ f.length < MAX_INPUT_LENGTH := by
    unfold MAX_INPUT_LENGTH at *; omega
  have hb : 0 ≤ f.length + 1 ∧ f.length + 1 < MAX_INPUT_LENGTH := by
    unfold MAX_INPUT_LENGTH at *; omega
  have hn : f.length.toNat = strlen f.text := by rw [← hs]; simp
  have hn1 : (f.length + 1).toNat = strlen f.text + 1 := by rw [← hs]; omega
  have hlt : strlen f.text + 1 < f.text.length := by
    rw [hlen]; unfold MAX_INPUT_LENGTH at hroom; omega
  have key1 := cstr_set_append (toChar key) hc f.text (strlen f.text) rfl hlt
  unfold appendChar
  simp only [hroom, if_true, writeText, ha, hb, and_self, hn, hn1]
  refine ⟨_, rfl, key1, rfl, ?_⟩
  show ((strlen ((f.text.set (strlen f.text) (toChar key)).set (strlen f.text + 1) 0) : Nat) : Int)
    = f.length + 1
  have hs2 : strlen ((f.text.set (strlen f.text) (toChar key)).set (strlen f.text + 1) 0)
      = strlen f.text + 1 := by
    show (cstr _).length = _
    rw [key1]
    simp [strlen]
  rw [hs2, ← hs]
  push_cast
  rfl

/-- C9 (the code departs from it): from the initial state, a click on the username
field with the single character code 256 typed leaves the field with
`length = 1` while `text` read as a terminated string is empty (`strlen` 0):
`(char)256` is the NUL byte. The same holds of the bare append step. With "b"
then typed into the password field on the sign-up page, the submit answers
"Please fill all fields!" although both length counters are 1. -/
theorem append_code_256_stores_nul :
    (runFrames (initialSession [] zeroField zeroField) [clickFrame 260 150 [256]]).map
      (fun s => (s.usernameField.isActive, s.usernameField.length,
        strlen s.usernameField.text, cstr s.usernameField.text)) = some (true, 1, 0, []) ∧
    (appendChar { zeroField with isActive := true } 256).map
      (fun g => (g.length, strlen g.text, cstr g.text)) = some (1, 0, []) ∧
    toChar 256 = 0 ∧
    (runFrames (initialSession [] zeroField zeroField)
      [tabFrame, clickFrame 260 150 [256], clickFrame 260 210 [98], clickFrame 350 300 []]).map
      (fun s => (s.usernameField.length, s.passwordField.length, s.message, s.db)) =
      some (1, 1, some "Please fill all fields!", []) := by
  refine ⟨by decide, by decide, by decide, by rfl⟩

/-- C7: the toggle block flips the page, leaves both fields with an empty string
and length 0, resets the outcome to pending (no message, both flags false),
keeps both `isActive` flags and the store, and applied twice restores the page. -/
theorem toggle_resets_transient_state (s : Session) :
    ((switchPage s).currentPage =
      (match s.currentPage with
       | PageType.PAGE_SIGNIN => PageType.PAGE_SIGNUP
       | PageType.PAGE_SIGNUP => PageType.PAGE_SIGNIN)) ∧
    cstr (switchPage s).usernameField.text = [] ∧
    strlen (switchPage s).usernameField.text = 0 ∧
    (switchPage s).usernameField.length = 0 ∧
    cstr (switchPage s).passwordField.text = [] ∧
    strlen (switchPage s).passwordField.text = 0 ∧
    (switchPage s).passwordField.length = 0 ∧
    (switchPage s).message = none ∧
    (switchPage s).actionSuccess = false ∧
    (switchPage s).actionError = false ∧
    outcome (switchPage s) = AuthOutcome.Pending ∧
    (switchPage s).usernameField.isActive = s.usernameField.isActive ∧
    (switchPage s).passwordField.isActive = s.passwordField.isActive ∧
    (switchPage s).usernameField.bounds = s.usernameField.bounds ∧
    (switchPage s).passwordField.bounds = s.passwordField.bounds ∧
    (switchPage s).db = s.db ∧
    (switchPage s).shouldClose = s.shouldClose ∧
    (switchPage (switchPage s)).currentPage = s.currentPage := by
  refine ⟨?_, ?_, ?_, rfl, ?_, ?_, rfl, rfl, rfl, rfl, rfl, rfl, rfl, rfl, rfl, rfl, rfl, ?_⟩
  · cases h : s.currentPage <;> simp [switchPage, h]
  · exact cstr_set_zero _
  · simp [strlen, switchPage, clearField, cstr_set_zero]
  · exact cstr_set_zero _
  · simp [strlen, switchPage, clearField, cstr_set_zero]
  · cases h : s.currentPage <;> simp [switchPage, h]

/-! ## Properties of a frame -/

theorem usernameBounds_passwordBounds_disjoint (m : Vector2)
    (h1 : CheckCollisionPointRec m usernameBounds = true)
    (h2 : CheckCollisionPointRec m passwordBounds = true) : False := by
  simp only [CheckCollisionPointRec, usernameBounds, passwordBounds, Bool.and_eq_true,
    decide_eq_true_eq] at h1 h2
  omega

theorem actionButton_outside_fields (m : Vector2)
    (h : CheckCollisionPointRec m actionButton = true) :
    CheckCollisionPointRec m usernameBounds = false ∧
    CheckCollisionPointRec m passwordBounds = false := by
  simp only [CheckCollisionPointRec, actionButton, Bool.and_eq_true, decide_eq_true_eq] at h
  constructor
  · cases h1 : CheckCollisionPointRec m usernameBounds
    · rfl
    · simp only [CheckCollisionPointRec, usernameBounds, Bool.and_eq_true,
        decide_eq_true_eq] at h1
      omega
  · cases h2 : CheckCollisionPointRec m passwordBounds
    · rfl
    · simp only [CheckCollisionPointRec, passwordBounds, Bool.and_eq_true,
        decide_eq_true_eq] at h2
      omega

theorem handleTab_fieldsOk (s : Session) (inp : FrameInput) (h : FieldsOk s) :
    FieldsOk (handleTab s inp) := by
  unfold handleTab
  by_cases ht : inp.tabPressed = true
  · simp only [ht, if_true]
    obtain ⟨-, -, hb1, hb2⟩ := h
    refine ⟨⟨?_, ?_⟩, ⟨?_, ?_⟩, hb1, hb2⟩ <;>
      simp [switchPage, clearField, MAX_INPUT_LENGTH]
  · simp only [ht]
    exact h

theorem handleTab_keeps (s : Session) (inp : FrameInput) :
    (handleTab s inp).db = s.db ∧ (handleTab s inp).shouldClose = s.shouldClose ∧
    (handleTab s inp).usernameField.isActive = s.usernameField.isActive ∧
    (handleTab s inp).passwordField.isActive = s.passwordField.isActive := by
  unfold handleTab
  by_cases ht : inp.tabPressed = true
  · simp only [ht, if_true]
    exact ⟨rfl, rfl, rfl, rfl⟩
  · simp only [ht]
    exact ⟨rfl, rfl, rfl, rfl⟩

/-- The shape of a frame: from a state with both counters in range the frame
completes; it is the action-button step applied to the state `s2` left by the tab handling
and the two field updates. -/
theorem cycle_structure (s : Session) (inp : FrameInput) (h : FieldsOk s) :
    ∃ s2, updateFields s inp = some s2 ∧ cycle s inp = some (handleAction s2 inp) ∧
      FieldsOk s2 ∧ s2.db = s.db ∧ s2.shouldClose = s.shouldClose ∧
      s2.currentPage = (handleTab s inp).currentPage ∧
      s2.actionSuccess = (handleTab s inp).actionSuccess ∧
      s2.actionError = (handleTab s inp).actionError ∧
      s2.message = (handleTab s inp).message ∧
      s2.usernameField.isActive =
        (if inp.mousePressed then CheckCollisionPointRec inp.mouse usernameBounds
          else s.usernameField.isActive) ∧
      s2.passwordField.isActive =
        (if inp.mousePressed then CheckCollisionPointRec inp.mouse passwordBounds
          else s.passwordField.isActive) := by
  obtain ⟨⟨hu0, hu1⟩, ⟨hp0, hp1⟩, hb1, hb2⟩ := handleTab_fieldsOk s inp h
  obtain ⟨hdb, hsc, ha1, ha2⟩ := handleTab_keeps s inp
  obtain ⟨u, q1, hu, a, b, c, d⟩ :=
    UpdateInputField_spec (handleTab s inp).usernameField inp inp.chars hu0 hu1
  obtain ⟨p, q2, hp, a2, b2, c2, d2⟩ :=
    UpdateInputField_spec (handleTab s inp).passwordField inp q1 hp0 hp1
  have hupd : updateFields s inp =
      some { handleTab s inp with usernameField := u, passwordField := p } := by
    unfold updateFields
    simp only [hu, hp]
  refine ⟨{ handleTab s inp with usernameField := u, passwordField := p }, hupd, ?_, ?_, hdb,
    hsc, rfl, rfl, rfl, rfl, ?_, ?_⟩
  · unfold cycle
    simp only [hupd]
  · exact ⟨⟨a, b⟩, ⟨a2, b2⟩, c.trans hb1, c2.trans hb2⟩
  · show u.isActive = _
    rw [d, hb1, ha1]
  · show p.isActive = _
    rw [d2, hb2, ha2]

theorem signUp_keeps (eng : Engine) (s : Session) :
    (signUp eng s).shouldClose = s.shouldClose ∧
    (signUp eng s).currentPage = s.currentPage ∧
    (signUp eng s).usernameField.isActive = s.usernameField.isActive ∧
    (signUp eng s).passwordField.isActive = s.passwordField.isActive ∧
    (signUp eng s).usernameField.bounds = s.usernameField.bounds ∧
    (signUp eng s).passwordField.bounds = s.passwordField.bounds ∧
    ((signUp eng s).usernameField.length = s.usernameField.length ∨
      (signUp eng s).usernameField.length = 0) ∧
    ((signUp eng s).passwordField.length = s.passwordField.length ∨
      (signUp eng s).passwordField.length = 0) := by
  unfold signUp
  by_cases hp : eng.prepareRc = SQLITE_OK
  · simp only [hp, if_true]
    rcases hst : stepInsert s.db eng (cstr s.usernameField.text) (cstr s.passwordField.text)
      with ⟨r, db1⟩
    cases r <;>
      exact ⟨rfl, rfl, rfl, rfl, rfl, rfl, by first | exact Or.inl rfl | exact Or.inr rfl,
        by first | exact Or.inl rfl | exact Or.inr rfl⟩
  · rw [if_neg hp]
    exact ⟨rfl, rfl, rfl, rfl, rfl, rfl, Or.inl rfl, Or.inl rfl⟩

theorem signIn_keeps (eng : Engine) (s : Session) :
    (signIn eng s).db = s.db ∧
    (signIn eng s).currentPage = s.currentPage ∧
    (signIn eng s).usernameField = s.usernameField ∧
    (signIn eng s).passwordField = s.passwordField := by
  unfold signIn
  split_ifs <;> exact ⟨rfl, rfl, rfl, rfl⟩

theorem submit_keeps (eng : Engine) (s : Session) :
    (submit eng s).currentPage = s.currentPage ∧
    (submit eng s).usernameField.isActive = s.usernameField.isActive ∧
    (submit eng s).passwordField.isActive = s.passwordField.isActive ∧
    (submit eng s).usernameField.bounds = s.usernameField.bounds ∧
    (submit eng s).passwordField.bounds = s.passwordField.bounds ∧
    ((submit eng s).usernameField.length = s.usernameField.length ∨
      (submit eng s).usernameField.length = 0) ∧
    ((submit eng s).passwordField.length = s.passwordField.length ∨
      (submit eng s).passwordField.length = 0) := by
  unfold submit
  by_cases hf : strlen s.usernameField.text > 0 ∧ strlen s.passwordField.text > 0
  · simp only [hf, and_self, if_true]
    by_cases hpg : s.currentPage = PageType.PAGE_SIGNUP
    · simp only [hpg, if_true]
      obtain ⟨-, a, b, c, d, e, f, g⟩ := signUp_keeps eng s
      exact ⟨a.trans hpg, b, c, d, e, f, g⟩
    · simp only [hpg, if_false]
      obtain ⟨-, a, b, c⟩ := signIn_keeps eng s
      rw [b, c]
      exact ⟨a, rfl, rfl, rfl, rfl, Or.inl rfl, Or.inl rfl⟩
  · rw [if_neg hf]
    exact ⟨rfl, rfl, rfl, rfl, rfl, Or.inl rfl, Or.inl rfl⟩

theorem submit_fieldsOk (eng : Engine) (s : Session) (h : FieldsOk s) :
    FieldsOk (submit eng s) := by
  obtain ⟨-, -, -, c, d, e, f⟩ := submit_keeps eng s
  obtain ⟨⟨hu0, hu1⟩, ⟨hp0, hp1⟩, hb1, hb2⟩ := h
  refine ⟨?_, ?_, c.trans hb1, d.trans hb2⟩
  · rcases e with e | e <;> rw [e]
    · exact ⟨hu0, hu1⟩
    · simp [MAX_INPUT_LENGTH]
  · rcases f with f | f <;> rw [f]
    · exact ⟨hp0, hp1⟩
    · simp [MAX_INPUT_LENGTH]

/-- Every frame from a state with both counters in range completes, and leaves
them in range. -/
theorem cycle_total (s : Session) (inp : FrameInput) (h : FieldsOk s) :
    ∃ s1, cycle s inp = some s1 ∧ FieldsOk s1 := by
  obtain ⟨s2, -, hc, hok, -⟩ := cycle_structure s inp h
  refine ⟨_, hc, ?_⟩
  unfold handleAction
  by_cases hs : submitEvent inp = true
  · rw [if_pos hs]
    exact submit_fieldsOk _ _ hok
  · rw [if_neg hs]
    exact hok

theorem initialSession_fieldsOk (db : Db) (mem1 mem2 : InputField) :
    FieldsOk (initialSession db mem1 mem2) := by
  simp [FieldsOk, initialSession, InitInputField, MAX_INPUT_LENGTH]

theorem cycle_fieldsOk (s s1 : Session) (inp : FrameInput) (h : FieldsOk s)
    (hc : cycle s inp = some s1) : FieldsOk s1 := by
  obtain ⟨s1b, hc2, hok⟩ := cycle_total s inp h
  rw [hc] at hc2
  cases hc2
  exact hok

theorem reachable_fieldsOk (db : Db) (mem1 mem2 : InputField) (s : Session)
    (h : Reachable db mem1 mem2 s) : FieldsOk s := by
  induction h with
  | start => exact initialSession_fieldsOk db mem1 mem2
  | frame s s1 inp _ _ hc ih => exact cycle_fieldsOk s s1 inp ih hc

theorem cycle_activation (s : Session) (inp : FrameInput) (h : FieldsOk s) :
    ∃ s1, cycle s inp = some s1 ∧
      s1.usernameField.isActive =
        (if inp.mousePressed then CheckCollisionPointRec inp.mouse usernameBounds
          else s.usernameField.isActive) ∧
      s1.passwordField.isActive =
        (if inp.mousePressed then CheckCollisionPointRec inp.mouse passwordBounds
          else s.passwordField.isActive) := by
  obtain ⟨s2, -, hc, -, -, -, -, -, -, -, hu, hp⟩ := cycle_structure s inp h
  refine ⟨_, hc, ?_, ?_⟩
  · unfold handleAction
    by_cases hs : submitEvent inp = true
    · rw [if_pos hs, (submit_keeps inp.engine s2).2.1, hu]
    · rw [if_neg hs]
      exact hu
  · unfold handleAction
    by_cases hs : submitEvent inp = true
    · rw [if_pos hs, (submit_keeps inp.engine s2).2.2.1, hp]
    · rw [if_neg hs]
      exact hp

theorem exclusive_after_cycle (s s1 : Session) (inp : FrameInput) (h : FieldsOk s)
    (hex : ¬(s.usernameField.isActive = true ∧ s.passwordField.isActive = true))
    (hc : cycle s inp = some s1) :
    ¬(s1.usernameField.isActive = true ∧ s1.passwordField.isActive = true) := by
  obtain ⟨s1b, hc2, hu, hp⟩ := cycle_activation s inp h
  rw [hc] at hc2
  cases hc2
  rw [hu, hp]
  by_cases hpr : inp.mousePressed = true
  · simp only [hpr, if_true]
    exact fun hb => usernameBounds_passwordBounds_disjoint inp.mouse hb.1 hb.2
  · simp only [hpr]
    exact hex

theorem reachable_exclusive (db : Db) (mem1 mem2 : InputField) (s : Session)
    (h : Reachable db mem1 mem2 s) :
    ¬(s.usernameField.isActive = true ∧ s.passwordField.isActive = true) := by
  induction h with
  | start => simp [initialSession, InitInputField]
  | frame s s1 inp hr _ hc ih =>
    exact exclusive_after_cycle s s1 inp (reachable_fieldsOk db mem1 mem2 s hr) ih hc

/-- C10: both fields start inactive; in every state reachable from the initial one
at most one of the two `isActive` flags is set, and every further frame completes
and again ends with at most one set. In a frame with a press, a pointer inside the
username rectangle leaves the username field active and the password field
inactive, a pointer inside the password rectangle the reverse, and a pointer
outside both (in particular on the action button) leaves both inactive; a frame
without a press keeps both flags. The two rectangles have no common point. -/
theorem field_activation_exclusive (db : Db) (mem1 mem2 : InputField) (s : Session)
    (h : Reachable db mem1 mem2 s) :
    ((initialSession db mem1 mem2).usernameField.isActive = false ∧
      (initialSession db mem1 mem2).passwordField.isActive = false) ∧
    ¬(s.usernameField.isActive = true ∧ s.passwordField.isActive = true) ∧
    (∀ m, ¬(CheckCollisionPointRec m usernameBounds = true ∧
      CheckCollisionPointRec m passwordBounds = true)) ∧
    ∀ inp, ∃ s1, cycle s inp = some s1 ∧
      ¬(s1.usernameField.isActive = true ∧ s1.passwordField.isActive = true) ∧
      (inp.mousePressed = true → CheckCollisionPointRec inp.mouse usernameBounds = true →
        s1.usernameField.isActive = true ∧ s1.passwordField.isActive = false) ∧
      (inp.mousePressed = true → CheckCollisionPointRec inp.mouse passwordBounds = true →
        s1.passwordField.isActive = true ∧ s1.usernameField.isActive = false) ∧
      (inp.mousePressed = true → CheckCollisionPointRec inp.mouse usernameBounds = false →
        CheckCollisionPointRec inp.mouse passwordBounds = false →
        s1.usernameField.isActive = false ∧ s1.passwordField.isActive = false) ∧
      (submitEvent inp = true →
        s1.usernameField.isActive = false ∧ s1.passwordField.isActive = false) ∧
      (inp.mousePressed = false →
        s1.usernameField.isActive = s.usernameField.isActive ∧
        s1.passwordField.isActive = s.passwordField.isActive) := by
  have hok := reachable_fieldsOk db mem1 mem2 s h
  have hex := reachable_exclusive db mem1 mem2 s h
  refine ⟨⟨rfl, rfl⟩, hex, ?_, ?_⟩
  · exact fun m hb => usernameBounds_passwordBounds_disjoint m hb.1 hb.2
  intro inp
  obtain ⟨s1, hc, hu, hp⟩ := cycle_activation s inp hok
  refine ⟨s1, hc, exclusive_after_cycle s s1 inp hok hex hc, ?_, ?_, ?_, ?_, ?_⟩
  · intro hpr hin
    rw [hu, hp]
    simp only [hpr, if_true]
    refine ⟨hin, ?_⟩
    cases h2 : CheckCollisionPointRec inp.mouse passwordBounds
    · rfl
    · exact (usernameBounds_passwordBounds_disjoint inp.mouse hin h2).elim
  · intro hpr hin
    rw [hu, hp]
    simp only [hpr, if_true]
    refine ⟨hin, ?_⟩
    cases h2 : CheckCollisionPointRec inp.mouse usernameBounds
    · rfl
    · exact (usernameBounds_passwordBounds_disjoint inp.mouse h2 hin).elim
  · intro hpr h1 h2
    rw [hu, hp]
    simp only [hpr, if_true]
    exact ⟨h1, h2⟩
  · intro hs
    have hs2 := hs
    simp only [submitEvent, Bool.and_eq_true] at hs2
    obtain ⟨h1, h2⟩ := actionButton_outside_fields inp.mouse hs2.1
    rw [hu, hp]
    simp only [hs2.2, if_true]
    exact ⟨h1, h2⟩
  · intro hpr
    rw [hu, hp]
    simp [hpr]

/-- The state after a click on the username field is reachable, and a click on
the password field then moves the activation over. -/
theorem field_activation_exclusive_witness :
    Reachable [] zeroField zeroField
      { initialSession [] zeroField zeroField with
        usernameField := { InitInputField zeroField usernameBounds with isActive := true } } ∧
    ∃ s1, cycle { initialSession [] zeroField zeroField with
        usernameField := { InitInputField zeroField usernameBounds with isActive := true } }
        (clickFrame 260 210 []) = some s1 ∧
      s1.passwordField.isActive = true ∧ s1.usernameField.isActive = false :=
  have hr : Reachable [] zeroField zeroField
      { initialSession [] zeroField zeroField with
        usernameField := { InitInputField zeroField usernameBounds with isActive := true } } :=
    Reachable.frame (initialSession [] zeroField zeroField) _ (clickFrame 260 150 [])
      Reachable.start rfl (by decide)
  ⟨hr, by
    obtain ⟨s1, hc, -, -, h4, -⟩ :=
      (field_activation_exclusive [] zeroField zeroField _ hr).2.2.2 (clickFrame 260 210 [])
    exact ⟨s1, hc, h4 rfl (by decide)⟩⟩

/-! ## Termination of the session -/

theorem page_not_signup (p : PageType) : p ≠ PageType.PAGE_SIGNUP ↔ p = PageType.PAGE_SIGNIN := by
  cases p <;> simp

theorem ValidateCredentials_healthy (db : Db) (u q : CStr) :
    ValidateCredentials db Engine.healthy u q = true ↔ lookupPassword db u = some q := by
  unfold ValidateCredentials stepSelect Engine.healthy
  simp only [ne_eq, not_true_eq_false, if_false]
  cases h : lookupPassword db u with
  | none => simp
  | some stored =>
    simp only [beq_iff_eq, Option.some.injEq]
    exact eq_comm

theorem submit_shouldClose (eng : Engine) (s : Session) (h : s.shouldClose = false) :
    (submit eng s).shouldClose = true ↔
      (s.currentPage = PageType.PAGE_SIGNIN ∧ strlen s.usernameField.text > 0 ∧
        strlen s.passwordField.text > 0 ∧
        ValidateCredentials s.db eng (cstr s.usernameField.text)
          (cstr s.passwordField.text) = true) := by
  unfold submit
  by_cases hf : strlen s.usernameField.text > 0 ∧ strlen s.passwordField.text > 0
  · rw [if_pos hf]
    by_cases hpg : s.currentPage = PageType.PAGE_SIGNUP
    · rw [if_pos hpg, (signUp_keeps eng s).1, h]
      simp [hpg]
    · rw [if_neg hpg]
      have hin := (page_not_signup _).1 hpg
      unfold signIn
      by_cases hv : ValidateCredentials s.db eng (cstr s.usernameField.text)
          (cstr s.passwordField.text) = true
      · rw [if_pos hv]
        simp [hin, hf.1, hf.2, hv]
      · rw [if_neg hv]
        simp [h, hv]
  · rw [if_neg hf]
    constructor
    · intro hc
      simp [h] at hc
    · intro hc
      exact (hf ⟨hc.2.1, hc.2.2.1⟩).elim

/-- C6: `shouldClose` starts false, and a frame run from a state in which it is
false completes and sets it exactly when the frame carries a submit event while
the page left by this frame's tab handling is the sign-in page, both fields (after
this frame's edits, state `s2`) hold a non-empty string and `ValidateCredentials`
accepts the pair; with a healthy engine that is when the store holds the password
under the username. No other submit, toggle, click or edit sets it. -/
theorem session_ends_exactly_on_signin_success (s : Session) (inp : FrameInput)
    (hok : FieldsOk s) (hopen : s.shouldClose = false) :
    (∀ db mem1 mem2, (initialSession db mem1 mem2).shouldClose = false) ∧
    ∃ s2 s1, updateFields s inp = some s2 ∧ cycle s inp = some s1 ∧
      s2.currentPage = (handleTab s inp).currentPage ∧ s2.db = s.db ∧
      (s1.shouldClose = true ↔
        (submitEvent inp = true ∧ (handleTab s inp).currentPage = PageType.PAGE_SIGNIN ∧
          cstr s2.usernameField.text ≠ [] ∧ cstr s2.passwordField.text ≠ [] ∧
          ValidateCredentials s.db inp.engine (cstr s2.usernameField.text)
            (cstr s2.passwordField.text) = true)) ∧
      (inp.engine = Engine.healthy →
        (s1.shouldClose = true ↔
          (submitEvent inp = true ∧ (handleTab s inp).currentPage = PageType.PAGE_SIGNIN ∧
            cstr s2.usernameField.text ≠ [] ∧ cstr s2.passwordField.text ≠ [] ∧
            lookupPassword s.db (cstr s2.usernameField.text) =
              some (cstr s2.passwordField.text)))) := by
  refine ⟨fun _ _ _ => rfl, ?_⟩
  obtain ⟨s2, hupd, hc, -, hdb, hsc, hpg, -⟩ := cycle_structure s inp hok
  have hsc2 : s2.shouldClose = false := hsc.trans hopen
  have hne : ∀ t : List Nat, strlen t > 0 ↔ cstr t ≠ [] := by
    intro t
    unfold strlen
    exact List.length_pos
  have main : (handleAction s2 inp).shouldClose = true ↔
      (submitEvent inp = true ∧ (handleTab s inp).currentPage = PageType.PAGE_SIGNIN ∧
        cstr s2.usernameField.text ≠ [] ∧ cstr s2.passwordField.text ≠ [] ∧
        ValidateCredentials s.db inp.engine (cstr s2.usernameField.text)
          (cstr s2.passwordField.text) = true) := by
    unfold handleAction
    by_cases hs : submitEvent inp = true
    · rw [if_pos hs, submit_shouldClose inp.engine s2 hsc2, hpg, hdb, hne, hne]
      simp [hs]
    · rw [if_neg hs]
      simp [hs, hsc2]
  refine ⟨s2, _, hupd, hc, hpg, hdb, main, ?_⟩
  intro hh
  rw [main, hh, ValidateCredentials_healthy]

/-- On the sign-in page with fields "a" and "b" over a store holding ("a","b"),
a press on the action button ends the session. -/
theorem session_ends_exactly_on_signin_success_witness :
    FieldsOk (typedSession [([97], [98])] PageType.PAGE_SIGNIN [97] [98]) ∧
    (typedSession [([97], [98])] PageType.PAGE_SIGNIN [97] [98]).shouldClose = false ∧
    ∃ s1, cycle (typedSession [([97], [98])] PageType.PAGE_SIGNIN [97] [98])
        (clickFrame 350 300 []) = some s1 ∧ s1.shouldClose = true :=
  ⟨by decide, rfl, by
    obtain ⟨s2, s1, hupd, hc, -, -, -, hh⟩ :=
      (session_ends_exactly_on_signin_success
        (typedSession [([97], [98])] PageType.PAGE_SIGNIN [97] [98])
        (clickFrame 350 300 []) (by decide) rfl).2
    have h2 : updateFields (typedSession [([97], [98])] PageType.PAGE_SIGNIN [97] [98])
        (clickFrame 350 300 []) =
        some (typedSession [([97], [98])] PageType.PAGE_SIGNIN [97] [98]) := by decide
    have e : s2 = typedSession [([97], [98])] PageType.PAGE_SIGNIN [97] [98] :=
      Option.some.inj (hupd.symm.trans h2)
    subst e
    exact ⟨s1, hc, (hh rfl).2 (by decide)⟩⟩

/-! ## The store -/

theorem lookupPassword_none (db : Db) (u : CStr) :
    lookupPassword db u = none ↔ ∀ p, (u, p) ∉ db := by
  induction db with
  | nil => simp [lookupPassword]
  | cons r rest ih =>
    obtain ⟨a, b⟩ := r
    unfold lookupPassword
    by_cases h : a = u
    · subst h
      simp only [if_true]
      constructor
      · intro hc
        cases hc
      · intro hc
        exact (hc b (List.mem_cons_self _ _)).elim
    · rw [if_neg h, ih]
      constructor
      · intro hc p hm
        rcases List.mem_cons.1 hm with e | e
        · exact h (Prod.mk.inj e).1.symm
        · exact hc p e
      · intro hc p hm
        exact hc p (List.mem_cons_of_mem _ hm)

theorem lookupPassword_mem (db : Db) (u q : CStr) (h : lookupPassword db u = some q) :
    (u, q) ∈ db := by
  induction db with
  | nil => simp [lookupPassword] at h
  | cons r rest ih =>
    obtain ⟨a, b⟩ := r
    unfold lookupPassword at h
    by_cases e : a = u
    · subst e
      rw [if_pos rfl] at h
      cases h
      exact List.mem_cons_self _ _
    · rw [if_neg e] at h
      exact List.mem_cons_of_mem _ (ih h)

theorem lookupPassword_of_mem (db : Db) (u q : CStr) (hk : (db.map Prod.fst).Nodup)
    (h : (u, q) ∈ db) : lookupPassword db u = some q := by
  induction db with
  | nil => cases h
  | cons r rest ih =>
    obtain ⟨a, b⟩ := r
    simp only [List.map_cons, List.nodup_cons] at hk
    unfold lookupPassword
    rcases List.mem_cons.1 h with e | e
    · cases e
      rw [if_pos rfl]
    · by_cases hau : a = u
      · subst hau
        exact (hk.1 (List.mem_map_of_mem Prod.fst e)).elim
      · rw [if_neg hau]
        exact ih hk.2 e

theorem lookupPassword_append_new (db : Db) (u p : CStr) (h : lookupPassword db u = none) :
    lookupPassword (db ++ [(u, p)]) u = some p := by
  induction db with
  | nil => simp [lookupPassword]
  | cons r rest ih =>
    obtain ⟨a, b⟩ := r
    unfold lookupPassword at h
    by_cases e : a = u
    · rw [if_pos e] at h
      cases h
    · rw [if_neg e] at h
      show lookupPassword ((a, b) :: (rest ++ [(u, p)])) u = some p
      unfold lookupPassword
      rw [if_neg e]
      exact ih h

theorem nodup_keys_append (db : Db) (u p : CStr) (hk : (db.map Prod.fst).Nodup)
    (h : lookupPassword db u = none) : ((db ++ [(u, p)]).map Prod.fst).Nodup := by
  rw [List.map_append, List.nodup_append]
  refine ⟨hk, by simp, ?_⟩
  intro a ha hb
  simp only [List.map_cons, List.map_nil, List.mem_singleton] at hb
  subst hb
  obtain ⟨r, hr, e⟩ := List.mem_map.1 ha
  obtain ⟨x, y⟩ := r
  simp only at e
  subst e
  exact (lookupPassword_none db x).1 h y hr

theorem signUp_healthy_new (s : Session)
    (h : lookupPassword s.db (cstr s.usernameField.text) = none) :
    signUp Engine.healthy s =
      { s with
        db := s.db ++ [(cstr s.usernameField.text, cstr s.passwordField.text)]
        actionSuccess := true
        message := some "Signup successful!"
        usernameField := clearField s.usernameField
        passwordField := clearField s.passwordField } := by
  unfold signUp stepInsert
  simp [Engine.healthy, h]

theorem signUp_healthy_taken (s : Session) (stored : CStr)
    (h : lookupPassword s.db (cstr s.usernameField.text) = some stored) :
    signUp Engine.healthy s =
      { s with actionError := true, message := some "Username already exists!" } := by
  unfold signUp stepInsert
  simp [Engine.healthy, h]

theorem submit_signUp (eng : Engine) (s : Session)
    (hpage : s.currentPage = PageType.PAGE_SIGNUP)
    (hu : cstr s.usernameField.text ≠ []) (hp : cstr s.passwordField.text ≠ []) :
    submit eng s = signUp eng s := by
  unfold submit
  have hf : strlen s.usernameField.text > 0 ∧ strlen s.passwordField.text > 0 :=
    ⟨List.length_pos.2 hu, List.length_pos.2 hp⟩
  rw [if_pos hf, if_pos hpage]

theorem submit_signIn (eng : Engine) (s : Session)
    (hpage : s.currentPage = PageType.PAGE_SIGNIN)
    (hu : cstr s.usernameField.text ≠ []) (hp : cstr s.passwordField.text ≠ []) :
    submit eng s = signIn eng s := by
  unfold submit
  have hf : strlen s.usernameField.text > 0 ∧ strlen s.passwordField.text > 0 :=
    ⟨List.length_pos.2 hu, List.length_pos.2 hp⟩
  have hpg : ¬ s.currentPage = PageType.PAGE_SIGNUP := by rw [hpage]; decide
  rw [if_pos hf, if_neg hpg]

/-- The store side of sign-up: on the sign-up page, with a healthy engine, a
submit of a non-empty username `u` that no row of the store has, with a non-empty
password `p1`, sets `actionSuccess` and the message "Signup successful!", appends
the row `(u, p1)` and clears both fields; a later sign-up submit of `(u, p2)` over
that store takes the error branch (`actionError`, message "Username already
exists!") and leaves the store as it was: the rows for `u` are exactly
`[(u, p1)]`, the lookup of `u` gives `p1`, and usernames stay pairwise distinct.
Nothing is said here of `actionSuccess` after the second submit. -/
theorem signUp_store_unique (s : Session) (u p1 : CStr)
    (hpage : s.currentPage = PageType.PAGE_SIGNUP)
    (hu : cstr s.usernameField.text = u) (hp : cstr s.passwordField.text = p1)
    (hu0 : u ≠ []) (hp0 : p1 ≠ []) (hnew : ∀ p, (u, p) ∉ s.db) :
    (submit Engine.healthy s).message = some "Signup successful!" ∧
    (submit Engine.healthy s).actionSuccess = true ∧
    (submit Engine.healthy s).db = s.db ++ [(u, p1)] ∧
    (submit Engine.healthy s).shouldClose = s.shouldClose ∧
    cstr (submit Engine.healthy s).usernameField.text = [] ∧
    cstr (submit Engine.healthy s).passwordField.text = [] ∧
    ∀ (s2 : Session) (p2 : CStr), s2.db = (submit Engine.healthy s).db →
      s2.currentPage = PageType.PAGE_SIGNUP →
      cstr s2.usernameField.text = u → cstr s2.passwordField.text = p2 → p2 ≠ [] →
      (submit Engine.healthy s2).message = some "Username already exists!" ∧
      (submit Engine.healthy s2).actionError = true ∧
      (submit Engine.healthy s2).db = s.db ++ [(u, p1)] ∧
      (submit Engine.healthy s2).shouldClose = s2.shouldClose ∧
      (submit Engine.healthy s2).db.filter (fun r => decide (r.1 = u)) = [(u, p1)] ∧
      lookupPassword (submit Engine.healthy s2).db u = some p1 ∧
      ((s.db.map Prod.fst).Nodup → ((submit Engine.healthy s2).db.map Prod.fst).Nodup) := by
  have hnone : lookupPassword s.db (cstr s.usernameField.text) = none := by
    rw [hu]; exact (lookupPassword_none s.db u).2 hnew
  have e1 : submit Engine.healthy s = _ :=
    (submit_signUp Engine.healthy s hpage (by rw [hu]; exact hu0)
      (by rw [hp]; exact hp0)).trans (signUp_healthy_new s hnone)
  have hdb : (submit Engine.healthy s).db = s.db ++ [(u, p1)] := by
    rw [e1, hu, hp]
  refine ⟨by rw [e1], by rw [e1], hdb, by rw [e1], ?_, ?_, ?_⟩
  · rw [e1]; exact cstr_set_zero _
  · rw [e1]; exact cstr_set_zero _
  intro s2 p2 h2db h2page h2u h2p hp20
  have hlk : lookupPassword (s.db ++ [(u, p1)]) u = some p1 :=
    lookupPassword_append_new s.db u p1 (by rw [← hu]; exact hnone)
  have hsome : lookupPassword s2.db (cstr s2.usernameField.text) = some p1 := by
    rw [h2db, hdb, h2u]; exact hlk
  have e2 : submit Engine.healthy s2 = _ :=
    (submit_signUp Engine.healthy s2 h2page (by rw [h2u]; exact hu0)
      (by rw [h2p]; exact hp20)).trans (signUp_healthy_taken s2 p1 hsome)
  have hdb2 : (submit Engine.healthy s2).db = s.db ++ [(u, p1)] := by
    rw [e2]; show s2.db = _; rw [h2db, hdb]
  refine ⟨by rw [e2], by rw [e2], hdb2, by rw [e2], ?_, ?_, ?_⟩
  · rw [hdb2, List.filter_append]
    have : s.db.filter (fun r => decide (r.1 = u)) = [] := by
      rw [List.filter_eq_nil_iff]
      intro r hr
      obtain ⟨a, b⟩ := r
      simp only [decide_eq_true_eq]
      intro hau
      subst hau
      exact hnew b hr
    rw [this]
    simp
  · rw [hdb2]; exact hlk
  · intro hk
    rw [hdb2]
    exact nodup_keys_append s.db u p1 hk (by rw [← hu]; exact hnone)

/-- Sign-up of "alice" with "secret" over an empty store, then of "alice" with
"other": one row, and the second attempt is turned down. -/
theorem signUp_store_unique_example :
    (submit Engine.healthy (typedSession [] PageType.PAGE_SIGNUP
      [97, 108, 105, 99, 101] [115, 101, 99, 114, 101, 116])).db =
      [([97, 108, 105, 99, 101], [115, 101, 99, 114, 101, 116])] ∧
    (submit Engine.healthy (typedSession
      [([97, 108, 105, 99, 101], [115, 101, 99, 114, 101, 116])] PageType.PAGE_SIGNUP
      [97, 108, 105, 99, 101] [111, 116, 104, 101, 114])).message =
      some "Username already exists!" :=
  have h := signUp_store_unique
    (typedSession [] PageType.PAGE_SIGNUP [97, 108, 105, 99, 101] [115, 101, 99, 114, 101, 116])
    [97, 108, 105, 99, 101] [115, 101, 99, 114, 101, 116] rfl (by decide) (by decide)
    (by decide) (by decide) (fun _ hm => by cases hm)
  ⟨h.2.2.1, (h.2.2.2.2.2.2
    (typedSession [([97, 108, 105, 99, 101], [115, 101, 99, 114, 101, 116])]
      PageType.PAGE_SIGNUP [97, 108, 105, 99, 101] [111, 116, 104, 101, 114])
    [111, 116, 104, 101, 114] (by decide) rfl (by decide) (by decide) (by decide)).1⟩

/-! ## Invariants of the reachable states -/

theorem reachable_mainLoop (db : Db) (mem1 mem2 : InputField) (frames : List FrameInput) :
    ∀ (s final : Session) (drawn : List (Option (String × Color))),
      Reachable db mem1 mem2 s → mainLoop s frames = some (final, drawn) →
      Reachable db mem1 mem2 final := by
  induction frames with
  | nil =>
    intro s final drawn hr h
    simp only [mainLoop, Option.some.injEq, Prod.mk.injEq] at h
    rw [← h.1]
    exact hr
  | cons inp rest ih =>
    intro s final drawn hr h
    unfold mainLoop at h
    by_cases hstop : (inp.windowShouldClose || s.shouldClose) = true
    · rw [if_pos hstop] at h
      simp only [Option.some.injEq, Prod.mk.injEq] at h
      rw [← h.1]
      exact hr
    · rw [if_neg hstop] at h
      have hopen : s.shouldClose = false := by
        cases hsc : s.shouldClose
        · rfl
        · simp [hsc] at hstop
      cases hc : cycle s inp with
      | none => simp [hc] at h
      | some s1 =>
        simp only [hc] at h
        cases hm : mainLoop s1 rest with
        | none => simp [hm] at h
        | some r =>
          obtain ⟨f2, d2⟩ := r
          simp only [hm, Option.some.injEq, Prod.mk.injEq] at h
          rw [← h.1]
          exact ih s1 f2 d2 (Reachable.frame s s1 inp hr hopen hc) hm

theorem submit_keys_nodup (eng : Engine) (s : Session) (hk : (s.db.map Prod.fst).Nodup) :
    ((submit eng s).db.map Prod.fst).Nodup := by
  unfold submit
  split_ifs
  · unfold signUp stepInsert
    split_ifs
    · cases hf : eng.stepFault with
      | some code => simpa using hk
      | none =>
        cases hl : lookupPassword s.db (cstr s.usernameField.text) with
        | some stored => simpa using hk
        | none =>
          simpa using nodup_keys_append s.db (cstr s.usernameField.text)
            (cstr s.passwordField.text) hk hl
    · exact hk
  · rw [(signIn_keeps eng s).1]
    exact hk
  · exact hk

theorem reachable_keys_nodup (db : Db) (mem1 mem2 : InputField) (s : Session)
    (hk : (db.map Prod.fst).Nodup) (h : Reachable db mem1 mem2 s) :
    (s.db.map Prod.fst).Nodup := by
  induction h with
  | start => exact hk
  | frame s s1 inp hr _ hc ih =>
    obtain ⟨s2, -, hc2, -, hdb, -⟩ :=
      cycle_structure s inp (reachable_fieldsOk db mem1 mem2 s hr)
    rw [hc] at hc2
    cases hc2
    unfold handleAction
    split_ifs
    · exact submit_keys_nodup _ _ (by rw [hdb]; exact ih)
    · rw [hdb]; exact ih

theorem submit_signin_flag (eng : Engine) (s : Session)
    (h : s.currentPage = PageType.PAGE_SIGNIN → s.actionSuccess = false)
    (hopen : (submit eng s).shouldClose = false)
    (hpage : (submit eng s).currentPage = PageType.PAGE_SIGNIN) :
    (submit eng s).actionSuccess = false := by
  have hpg : s.currentPage = PageType.PAGE_SIGNIN := by
    rw [← (submit_keeps eng s).1]; exact hpage
  have hno : ¬ s.currentPage = PageType.PAGE_SIGNUP := by rw [hpg]; decide
  unfold submit at hopen ⊢
  by_cases hf : strlen s.usernameField.text > 0 ∧ strlen s.passwordField.text > 0
  · rw [if_pos hf, if_neg hno] at hopen ⊢
    unfold signIn at hopen ⊢
    by_cases hv : ValidateCredentials s.db eng (cstr s.usernameField.text)
        (cstr s.passwordField.text) = true
    · rw [if_pos hv] at hopen
      cases hopen
    · rw [if_neg hv]
      exact h hpg
  · rw [if_neg hf]
    exact h hpg

/-- On the sign-in page of a running session `actionSuccess` is not set: the only
success that keeps the loop running is a sign-up, and leaving the sign-up page
resets the flags. -/
theorem reachable_signin_flag (db : Db) (mem1 mem2 : InputField) (s : Session)
    (h : Reachable db mem1 mem2 s) :
    s.shouldClose = false → s.currentPage = PageType.PAGE_SIGNIN → s.actionSuccess = false := by
  induction h with
  | start => intro _ _; rfl
  | frame s s1 inp hr hopen hc ih =>
    obtain ⟨s2, -, hc2, -, -, -, hpg, hflag, -⟩ :=
      cycle_structure s inp (reachable_fieldsOk db mem1 mem2 s hr)
    rw [hc] at hc2
    cases hc2
    have h2 : s2.currentPage = PageType.PAGE_SIGNIN → s2.actionSuccess = false := by
      rw [hpg, hflag]
      unfold handleTab
      split_ifs
      · intro _; rfl
      · exact ih hopen
    unfold handleAction
    split_ifs
    · exact submit_signin_flag _ _ h2
    · intro _ hp; exact h2 hp

theorem updateFields_signin_flag (db : Db) (mem1 mem2 : InputField) (s s2 : Session)
    (inp : FrameInput) (h : Reachable db mem1 mem2 s) (hopen : s.shouldClose = false)
    (hupd : updateFields s inp = some s2) (hpage : s2.currentPage = PageType.PAGE_SIGNIN) :
    s2.actionSuccess = false ∧ s2.db = s.db ∧ s2.shouldClose = false ∧
    cycle s inp = some (handleAction s2 inp) := by
  obtain ⟨s2b, hupd2, hc2, -, hdb, hsc, hpg, hflag, -⟩ :=
    cycle_structure s inp (reachable_fieldsOk db mem1 mem2 s h)
  rw [hupd] at hupd2
  cases hupd2
  refine ⟨?_, hdb, hsc.trans hopen, hc2⟩
  rw [hflag]
  rw [hpg] at hpage
  revert hpage
  unfold handleTab
  split_ifs
  · intro _; rfl
  · exact reachable_signin_flag db mem1 mem2 s h hopen

/-! ## Sign-in -/

/-- C1: with a healthy engine and a store whose usernames are pairwise distinct,
`ValidateCredentials` accepts a pair `(u, q)` exactly when the store holds the row
`(u, q)`. In a running session, a frame that presses the action button on the
sign-in page with non-empty field strings `u` and `q` completes with outcome
Success("Login successful!") exactly when the store holds `(u, q)`; a stored
password different from `q`, or no row for `u`, gives
Failure("Invalid username or password!"); the store is not changed. -/
theorem signin_decides_by_exact_match (db0 : Db) (mem1 mem2 : InputField)
    (s s2 : Session) (inp : FrameInput) (u q : CStr)
    (hkeys : (db0.map Prod.fst).Nodup) (hr : Reachable db0 mem1 mem2 s)
    (hopen : s.shouldClose = false) (hupd : updateFields s inp = some s2)
    (hsub : submitEvent inp = true) (heng : inp.engine = Engine.healthy)
    (hpage : s2.currentPage = PageType.PAGE_SIGNIN)
    (hu : cstr s2.usernameField.text = u) (hq : cstr s2.passwordField.text = q)
    (hu0 : u ≠ []) (hq0 : q ≠ []) :
    (∀ db : Db, (db.map Prod.fst).Nodup →
      (ValidateCredentials db Engine.healthy u q = true ↔ (u, q) ∈ db)) ∧
    ∃ s1, cycle s inp = some s1 ∧ s1.db = s.db ∧
      (outcome s1 = AuthOutcome.Success "Login successful!" ↔ (u, q) ∈ s.db) ∧
      ((u, q) ∉ s.db → outcome s1 = AuthOutcome.Failure "Invalid username or password!") ∧
      (∀ p, (u, p) ∈ s.db → p ≠ q →
        outcome s1 = AuthOutcome.Failure "Invalid username or password!") ∧
      ((∀ p, (u, p) ∉ s.db) →
        outcome s1 = AuthOutcome.Failure "Invalid username or password!") := by
  have hval : ∀ db : Db, (db.map Prod.fst).Nodup →
      (ValidateCredentials db Engine.healthy u q = true ↔ (u, q) ∈ db) := by
    intro db hk
    rw [ValidateCredentials_healthy]
    exact ⟨lookupPassword_mem db u q, lookupPassword_of_mem db u q hk⟩
  refine ⟨hval, ?_⟩
  obtain ⟨hflag, hdb, -, hc⟩ := updateFields_signin_flag db0 mem1 mem2 s s2 inp hr hopen hupd hpage
  have hk := reachable_keys_nodup db0 mem1 mem2 s hkeys hr
  have hs1 : handleAction s2 inp = signIn Engine.healthy s2 := by
    unfold handleAction
    rw [if_pos hsub, heng]
    exact submit_signIn _ s2 hpage (by rw [hu]; exact hu0) (by rw [hq]; exact hq0)
  have hyes : (u, q) ∈ s.db →
      outcome (handleAction s2 inp) = AuthOutcome.Success "Login successful!" := by
    intro hm
    have hv : ValidateCredentials s2.db Engine.healthy (cstr s2.usernameField.text)
        (cstr s2.passwordField.text) = true := by
      rw [hu, hq, hdb]; exact (hval s.db hk).2 hm
    rw [hs1]
    unfold signIn
    rw [if_pos hv]
    rfl
  have hno : (u, q) ∉ s.db →
      outcome (handleAction s2 inp) = AuthOutcome.Failure "Invalid username or password!" := by
    intro hm
    have hv : ¬ ValidateCredentials s2.db Engine.healthy (cstr s2.usernameField.text)
        (cstr s2.passwordField.text) = true := by
      rw [hu, hq, hdb]; exact fun h => hm ((hval s.db hk).1 h)
    rw [hs1]
    unfold signIn
    rw [if_neg hv]
    simp [outcome, drawMessage, hflag]
  refine ⟨_, hc, ?_, ⟨?_, hyes⟩, hno, ?_, ?_⟩
  · rw [hs1, (signIn_keeps _ s2).1, hdb]
  · intro h
    by_contra hm
    rw [hno hm] at h
    cases h
  · intro p hmem hne
    apply hno
    intro hm
    have e1 := lookupPassword_of_mem s.db u p hk hmem
    have e2 := lookupPassword_of_mem s.db u q hk hm
    rw [e1] at e2
    exact hne (Option.some.inj e2)
  · intro hnone
    exact hno (hnone q)

/-- The running session with "a" and "b" typed over a store holding ("a","b"):
a press on the action button signs in. -/
theorem signin_decides_by_exact_match_witness :
    Reachable [([97], [98])] zeroField zeroField signInReady ∧
    updateFields signInReady (clickFrame 350 300 []) =
      some (typedSession [([97], [98])] PageType.PAGE_SIGNIN [97] [98]) ∧
    ∃ s1, cycle signInReady (clickFrame 350 300 []) = some s1 ∧
      outcome s1 = AuthOutcome.Success "Login successful!" :=
  have hr : Reachable [([97], [98])] zeroField zeroField signInReady :=
    reachable_mainLoop [([97], [98])] zeroField zeroField
      [clickFrame 260 150 [97], clickFrame 260 210 [98]] _ signInReady [none, none]
      Reachable.start (by decide)
  have hupd : updateFields signInReady (clickFrame 350 300 []) =
      some (typedSession [([97], [98])] PageType.PAGE_SIGNIN [97] [98]) := by decide
  ⟨hr, hupd, by
    obtain ⟨s1, hc, -, hiff, -⟩ :=
      (signin_decides_by_exact_match [([97], [98])] zeroField zeroField signInReady
        (typedSession [([97], [98])] PageType.PAGE_SIGNIN [97] [98]) (clickFrame 350 300 [])
        [97] [98] (by decide) hr rfl hupd (by decide) rfl rfl (by decide) (by decide)
        (by decide) (by decide)).2
    exact ⟨s1, hc, hiff.2 (by decide)⟩⟩

/-! ## The outcome flags -/

/-- C3 (the code departs from it): running `main` over an empty store on scenario A
then B (switch to sign-up, enter and submit ("alice","secret"), enter and submit
("alice","other") with no TAB in between) ends in a state with `actionSuccess`
and `actionError` both set and the message "Username already exists!", which the
last frame draws in green: the flags are never cleared by a submit. -/
theorem failed_signup_after_success_shown_green :
    (main 0 0 [] zeroField zeroField scenarioAB).map
      (fun r => r.loop.map (fun p =>
        (p.1.actionSuccess, p.1.actionError, p.1.message, outcome p.1, p.2.getLast?))) =
    some (some (true, true, some "Username already exists!",
      AuthOutcome.Success "Username already exists!",
      some (some ("Username already exists!", Color.GREEN)))) := by
  rfl

/-- C2 (the code departs from it): over an empty store, the sign-up of
("alice","secret") presents Success("Signup successful!") and records the row; the
sign-up of ("alice","other") that follows (fields retyped, no TAB) leaves the
store with that single row and sets the message "Username already exists!", but
the outcome it presents is Success, not Failure: `actionSuccess` is still set
from the first submit. The same holds of the bare submit step applied to the
state the first submit leaves, with the fields holding ("alice","other"). -/
theorem second_signup_outcome_is_not_failure :
    (runFrames (initialSession [] zeroField zeroField) (scenarioAB.take 4)).map
      (fun s => (outcome s, s.db)) =
      some (AuthOutcome.Success "Signup successful!",
        [([97, 108, 105, 99, 101], [115, 101, 99, 114, 101, 116])]) ∧
    (runFrames (initialSession [] zeroField zeroField) scenarioAB).map
      (fun s => (outcome s, s.db)) =
      some (AuthOutcome.Success "Username already exists!",
        [([97, 108, 105, 99, 101], [115, 101, 99, 114, 101, 116])]) ∧
    (runFrames (initialSession [] zeroField zeroField) scenarioAB).map outcome ≠
      some (AuthOutcome.Failure "Username already exists!") ∧
    outcome (submit Engine.healthy
      { submit Engine.healthy (typedSession [] PageType.PAGE_SIGNUP
          [97, 108, 105, 99, 101] [115, 101, 99, 114, 101, 116]) with
        usernameField := typedField [97, 108, 105, 99, 101] usernameBounds
        passwordField := typedField [111, 116, 104, 101, 114] passwordBounds }) =
      AuthOutcome.Success "Username already exists!" := by
  refine ⟨by rfl, by rfl, ?_, by rfl⟩
  have h : (runFrames (initialSession [] zeroField zeroField) scenarioAB).map outcome =
      some (AuthOutcome.Success "Username already exists!") := by rfl
  rw [h]
  intro hc
  cases hc

/-! ## Store failures -/

/-- C4 as stated fails: with both fields non-empty, a sign-in whose statement
cannot be prepared ends with the message "Invalid username or password!", and a
sign-up whose insert step fails with `SQLITE_FULL` ends with "Username already
exists!"; neither message is specific to the store failure. The first case is
also run through `main` from the initial state: type "a" and "b", press the button
while the prepare fails. -/
theorem store_failure_message_not_specific :
    (submit prepareFails (typedSession [] PageType.PAGE_SIGNIN [97] [98])).message =
      some "Invalid username or password!" ∧
    (submit stepFails (typedSession [] PageType.PAGE_SIGNUP [97] [98])).message =
      some "Username already exists!" ∧
    ¬ (∃ m, (submit prepareFails (typedSession [] PageType.PAGE_SIGNIN [97] [98])).message
        = some m ∧ m ≠ "Username already exists!" ∧ m ≠ "Invalid username or password!") ∧
    (main 0 0 [] zeroField zeroField
      [clickFrame 260 150 [97], clickFrame 260 210 [98],
        { clickFrame 350 300 [] with engine := prepareFails }]).map
      (fun r => r.loop.map (fun p => (p.1.message, p.1.actionError, p.1.shouldClose))) =
      some (some (some "Invalid username or password!", true, false)) := by
  refine ⟨by decide, by decide, ?_, by rfl⟩
  rintro ⟨m, hm, -, h2⟩
  have : (submit prepareFails (typedSession [] PageType.PAGE_SIGNIN [97] [98])).message =
      some "Invalid username or password!" := by decide
  rw [this] at hm
  exact h2 (Option.some.inj hm).symm

/-- C4 as amended: with both fields non-empty, a store failure during a submit
never sets `shouldClose` and never changes the store. A sign-in whose statement
cannot be prepared, or whose step reports an error, sets `actionError` and the
message "Invalid username or password!"; a sign-up whose insert step reports an
error, whatever its code, sets `actionError` and the message "Username already
exists!". -/
theorem store_failure_reported_with_generic_message (s : Session) (eng : Engine)
    (hu : cstr s.usernameField.text ≠ []) (hp : cstr s.passwordField.text ≠ []) :
    (s.currentPage = PageType.PAGE_SIGNIN →
      (eng.prepareRc ≠ SQLITE_OK ∨ ∃ code, eng.stepFault = some code) →
      (submit eng s).message = some "Invalid username or password!" ∧
      (submit eng s).actionError = true ∧
      (submit eng s).shouldClose = s.shouldClose ∧ (submit eng s).db = s.db) ∧
    (s.currentPage = PageType.PAGE_SIGNUP → eng.prepareRc = SQLITE_OK →
      (∃ code, eng.stepFault = some code) →
      (submit eng s).message = some "Username already exists!" ∧
      (submit eng s).actionError = true ∧
      (submit eng s).shouldClose = s.shouldClose ∧ (submit eng s).db = s.db) ∧
    (s.currentPage = PageType.PAGE_SIGNUP → eng.prepareRc ≠ SQLITE_OK →
      (submit eng s).shouldClose = s.shouldClose ∧ (submit eng s).db = s.db) := by
  refine ⟨?_, ?_, ?_⟩
  · intro hpage hfault
    have hv : ¬ ValidateCredentials s.db eng (cstr s.usernameField.text)
        (cstr s.passwordField.text) = true := by
      unfold ValidateCredentials stepSelect
      rcases hfault with h | ⟨code, h⟩
      · simp [h]
      · simp [h]
    rw [submit_signIn eng s hpage hu hp]
    unfold signIn
    rw [if_neg hv]
    exact ⟨rfl, rfl, rfl, rfl⟩
  · rintro hpage hprep ⟨code, hstep⟩
    rw [submit_signUp eng s hpage hu hp]
    unfold signUp stepInsert
    rw [if_pos hprep]
    simp [hstep]
  · intro hpage hprep
    rw [submit_signUp eng s hpage hu hp]
    unfold signUp
    rw [if_neg hprep]
    exact ⟨rfl, rfl⟩

/-- A sign-in of ("a","b") whose statement cannot be prepared: the error flag is
set and the session goes on. -/
theorem store_failure_reported_with_generic_message_witness :
    cstr (typedSession [] PageType.PAGE_SIGNIN [97] [98]).usernameField.text ≠ [] ∧
    cstr (typedSession [] PageType.PAGE_SIGNIN [97] [98]).passwordField.text ≠ [] ∧
    (submit prepareFails (typedSession [] PageType.PAGE_SIGNIN [97] [98])).actionError = true ∧
    (submit prepareFails (typedSession [] PageType.PAGE_SIGNIN [97] [98])).shouldClose = false :=
  have h := (store_failure_reported_with_generic_message
    (typedSession [] PageType.PAGE_SIGNIN [97] [98]) prepareFails (by decide) (by decide)).1
    rfl (Or.inl (by decide))
  ⟨by decide, by decide, h.2.1, h.2.2.1⟩

/-! ## Start-up -/

/-- C5 (the code departs from it): when the `CREATE TABLE IF NOT EXISTS users`
statement fails (`execRc = 1`) `main` prints the error and goes on into the loop:
over one frame with a TAB press it runs the cycle (the page flips, one frame is
drawn). A failed `sqlite3_open` does exit before the loop. Whatever `execRc` is,
the loop runs as it does when the statement succeeds. -/
theorem schema_failure_does_not_stop_startup :
    (main 0 1 [] zeroField zeroField [tabFrame]).map
      (fun r => (r.console, r.loop.map (fun p => (p.1.currentPage, p.2.length)))) =
      some (["SQL error"], some (PageType.PAGE_SIGNUP, 1)) ∧
    (main 1 0 [] zeroField zeroField [tabFrame]).map (fun r => (r.console, r.loop.isSome)) =
      some (["Can't open database"], false) ∧
    (∀ (execRc : Int) (db : Db) (mem1 mem2 : InputField) (frames : List FrameInput),
      (main 0 execRc db mem1 mem2 frames).map (fun r => r.loop) =
        (main 0 0 db mem1 mem2 frames).map (fun r => r.loop)) := by
  refine ⟨by decide, by decide, ?_⟩
  intro execRc db mem1 mem2 frames
  unfold main
  simp only [ne_eq, not_true_eq_false, if_false]
  cases mainLoop (initialSession db mem1 mem2) frames <;> rfl

end AuthPage
